import Mathlib

/-!
Verification of the nearly-neighbors proposal contract.

The repository ships two layers:

* `src/simulation/src/proposal.rs` — the Rust source under version control.
  There, `pub struct Proposal {}` has no fields and every method
  (`initialize`, `is_configured`, `configure`, `toString`, `add_supporter`,
  `get_factory`, `get_funding_total`) is an associated function with an
  empty body: no receiver, no state, no return value.  We embed this stub
  directly as `Proposal` and the `Stub*` definitions below.

* The crowdfunding proposal contract that the stubs and the simulation
  tests imply.  Its implementation (the wasm binary the tests deploy) is
  not part of the sources, so we model it from the specification:
  the `SpecProposal` state, its entry points and the transactional commit
  semantics.  Amounts are `u128` in the interface; we model them as `Nat`
  (the specification states no overflow behaviour, and every stated
  operation only adds).
-/

/- ### Direct embedding of src/simulation/src/proposal.rs -/

/-- Embedding of `pub struct Proposal {}`: a struct with no fields. -/
structure Proposal where
deriving DecidableEq, Repr

/-- Embedding of `pub fn initialize() {}`: no receiver, empty body. -/
def Proposal.initialize : Unit := ()

/-- Embedding of `pub fn is_configured() {}`. -/
def Proposal.is_configured : Unit := ()

/-- Embedding of `pub fn configure(title: &str, description: &str, goal: U128, min_deposit: U128) {}`:
the arguments are taken and ignored. -/
def Proposal.configure (_title _description : String) (_goal _min_deposit : Nat) : Unit := ()

/-- Embedding of `pub fn toString() {}`. -/
def Proposal.toString : Unit := ()

/-- Embedding of `pub fn add_supporter() {}`. -/
def Proposal.add_supporter : Unit := ()

/-- Embedding of `pub fn get_factory() {}`. -/
def Proposal.get_factory : Unit := ()

/-- Embedding of `pub fn get_funding_total() {}`. -/
def Proposal.get_funding_total : Unit := ()

/-- One invocation of a public entry point of the stub contract, with the
arguments the Rust signature takes. -/
inductive StubCall where
  | initCall
  | isConfiguredCall
  | configureCall (title description : String) (goal min_deposit : Nat)
  | toStringCall
  | addSupporterCall
  | getFactoryCall
  | getFundingTotalCall
deriving DecidableEq, Repr

/-- Executing one stub call against the (fieldless) contract value: each
method is a static function returning unit, so the call returns the method's
unit result and the contract value is passed through unchanged. -/
def stubExec : StubCall → Proposal → Proposal × Unit
  | StubCall.initCall, s => (s, Proposal.initialize)
  | StubCall.isConfiguredCall, s => (s, Proposal.is_configured)
  | StubCall.configureCall t d g m, s => (s, Proposal.configure t d g m)
  | StubCall.toStringCall, s => (s, Proposal.toString)
  | StubCall.addSupporterCall, s => (s, Proposal.add_supporter)
  | StubCall.getFactoryCall, s => (s, Proposal.get_factory)
  | StubCall.getFundingTotalCall, s => (s, Proposal.get_funding_total)

/-- Executing a sequence of stub calls, collecting each call's result. -/
def stubRun : List StubCall → Proposal → Proposal × List Unit
  | [], s => (s, [])
  | c :: cs, s =>
    let (s', r) := stubExec c s
    let (s'', rs) := stubRun cs s'
    (s'', r :: rs)

/- ### The contract the specification describes -/

/-- Account identities on the host chain; the simulation addresses them by
name ("root", "alice", "proposal"). -/
abbrev AccountId := String

/-- Modelled from the spec: the six error kinds of §7, each terminal for the
triggering call. -/
inductive ProposalError where
  | AlreadyInitialized
  | NotAuthorized
  | AlreadyConfigured
  | InvalidTerms
  | NotConfigured
  | DepositTooSmall
deriving DecidableEq, Repr

/-- Modelled from the spec: the Proposal entity of §3 (the implementation is
absent from the sources; only the stub signatures and the tests exist).
`factory` uses an Option-style not-yet-initialized sentinel as §9 suggests;
`supporters` is an association list from supporter identity to cumulative
amount; `funding_total` is the cached sum of the accepted contributions. -/
structure SpecProposal where
  factory : Option AccountId
  configured : Bool
  title : String
  description : String
  goal : Nat
  min_deposit : Nat
  supporters : List (AccountId × Nat)
  funding_total : Nat
deriving DecidableEq, Repr

/-- Modelled from the spec: the state of a freshly deployed, not yet
initialized proposal contract. -/
def initialState : SpecProposal :=
  { factory := none
    configured := false
    title := ""
    description := ""
    goal := 0
    min_deposit := 0
    supporters := []
    funding_total := 0 }

/-- Sum of the values of a supporter ledger. -/
def sumValues (l : List (AccountId × Nat)) : Nat :=
  (l.map Prod.snd).sum

/-- The cumulative amount recorded for `who` in a supporter ledger
(0 when absent). -/
def amountOf : List (AccountId × Nat) → AccountId → Nat
  | [], _ => 0
  | (k, v) :: rest, who => if k = who then v else amountOf rest who

/-- Upsert-or-insert on the supporter ledger (§9): add `amount` to the entry
of `who`, creating the entry if absent. -/
def addAmount : List (AccountId × Nat) → AccountId → Nat → List (AccountId × Nat)
  | [], who, amount => [(who, amount)]
  | (k, v) :: rest, who, amount =>
    if k = who then (k, v + amount) :: rest
    else (k, v) :: addAmount rest who amount

/-- Modelled from the spec: `initialize()` records the first caller's
identity as `factory` and fails with `AlreadyInitialized` on any later
call. -/
def SpecProposal.initOp (s : SpecProposal) (caller : AccountId) :
    Except ProposalError SpecProposal :=
  match s.factory with
  | some _ => Except.error ProposalError.AlreadyInitialized
  | none => Except.ok { s with factory := some caller }

/-- Modelled from the spec: `configure(title, description, goal, min_deposit)`
fails with `NotAuthorized` if the caller is not the recorded factory, with
`AlreadyConfigured` if called twice, with `InvalidTerms` if `goal == 0` or
`min_deposit == 0` or `min_deposit > goal`; on success it records the terms
and sets `configured = true`. -/
def SpecProposal.configureOp (s : SpecProposal) (caller : AccountId)
    (title description : String) (goal min_deposit : Nat) :
    Except ProposalError SpecProposal :=
  if s.factory = some caller then
    if s.configured then Except.error ProposalError.AlreadyConfigured
    else if goal = 0 ∨ min_deposit = 0 ∨ min_deposit > goal then
      Except.error ProposalError.InvalidTerms
    else
      Except.ok { s with configured := true, title := title,
                         description := description, goal := goal,
                         min_deposit := min_deposit }
  else Except.error ProposalError.NotAuthorized

/-- Modelled from the spec: `add_supporter()` with an attached payment fails
with `NotConfigured` while `configured` is false and with `DepositTooSmall`
when the attached amount is below `min_deposit`; on success it adds the
amount to the caller's ledger entry and to `funding_total`. -/
def SpecProposal.addSupporterOp (s : SpecProposal) (caller : AccountId)
    (amount : Nat) : Except ProposalError SpecProposal :=
  if s.configured = false then Except.error ProposalError.NotConfigured
  else if amount < s.min_deposit then Except.error ProposalError.DepositTooSmall
  else
    Except.ok { s with supporters := addAmount s.supporters caller amount
                       funding_total := s.funding_total + amount }

/-- Modelled from the spec: `is_configured()` — read-only, returns the
`configured` flag. -/
def SpecProposal.isConfiguredQuery (s : SpecProposal) : Bool :=
  s.configured

/-- Modelled from the spec: `get_factory()` — read-only, returns the recorded
factory identity. -/
def SpecProposal.getFactory (s : SpecProposal) : Option AccountId :=
  s.factory

/-- Modelled from the spec: `get_funding_total()` — read-only, returns
`funding_total`. -/
def SpecProposal.getFundingTotal (s : SpecProposal) : Nat :=
  s.funding_total

/-- Modelled from the spec: the host's all-or-nothing transactional
semantics (§5): a call either fully commits the new state, or aborts,
leaves the state unchanged and surfaces the failure reason to the caller. -/
def commit (s : SpecProposal) (r : Except ProposalError SpecProposal) :
    SpecProposal × Option ProposalError :=
  match r with
  | Except.ok t => (t, none)
  | Except.error e => (s, some e)

/-- The transactional step of `initialize`. -/
def initStep (s : SpecProposal) (caller : AccountId) :
    SpecProposal × Option ProposalError :=
  commit s (s.initOp caller)

/-- The transactional step of `configure`. -/
def configureStep (s : SpecProposal) (caller : AccountId)
    (title description : String) (goal min_deposit : Nat) :
    SpecProposal × Option ProposalError :=
  commit s (s.configureOp caller title description goal min_deposit)

/-- The transactional step of `add_supporter`. -/
def addSupporterStep (s : SpecProposal) (caller : AccountId) (amount : Nat) :
    SpecProposal × Option ProposalError :=
  commit s (s.addSupporterOp caller amount)

/-- The transactional step of the `get_funding_total` query: no state
change, no authorization check, the cached total is returned in every
state. -/
def getFundingTotalStep (s : SpecProposal) :
    SpecProposal × Except ProposalError Nat :=
  (s, Except.ok s.funding_total)

/-- The contract states reachable from deployment: the initial state, and
everything a successful mutating call reaches (a failed call commits no
state change, and queries change nothing, so success steps generate all
reachable states). -/
inductive Reachable : SpecProposal → Prop where
  | start : Reachable initialState
  | stepInit (s t : SpecProposal) (caller : AccountId) :
      Reachable s → s.initOp caller = Except.ok t → Reachable t
  | stepConfigure (s t : SpecProposal) (caller : AccountId)
      (title description : String) (goal min_deposit : Nat) :
      Reachable s →
      s.configureOp caller title description goal min_deposit = Except.ok t →
      Reachable t
  | stepAddSupporter (s t : SpecProposal) (caller : AccountId) (amount : Nat) :
      Reachable s → s.addSupporterOp caller amount = Except.ok t → Reachable t

/-- Running a sequence of `add_supporter` calls, each given as a caller and
an attached amount; `none` when any call in the sequence fails. -/
def runSupports : SpecProposal → List (AccountId × Nat) → Option SpecProposal
  | s, [] => some s
  | s, (c, a) :: rest =>
    match s.addSupporterOp c a with
    | Except.ok t => runSupports t rest
    | Except.error _ => none

/- ### Helper lemmas on the supporter ledger -/

theorem sumValues_addAmount (l : List (AccountId × Nat)) (who : AccountId)
    (a : Nat) : sumValues (addAmount l who a) = sumValues l + a := by
  induction l with
  | nil => simp [addAmount, sumValues]
  | cons p rest ih =>
    obtain ⟨k, v⟩ := p
    by_cases h : k = who
    · simp [addAmount, h, sumValues]
      omega
    · simp [addAmount, h, sumValues] at ih ⊢
      omega

theorem amountOf_addAmount (l : List (AccountId × Nat)) (who : AccountId)
    (a : Nat) : amountOf (addAmount l who a) who = amountOf l who + a := by
  induction l with
  | nil => simp [addAmount, amountOf]
  | cons p rest ih =>
    obtain ⟨k, v⟩ := p
    by_cases h : k = who
    · simp [addAmount, h, amountOf]
    · simp [addAmount, h, amountOf, ih]

/-- In every reachable state the cached `funding_total` is the ledger sum. -/
theorem reachable_sum (s : SpecProposal) (h : Reachable s) :
    s.funding_total = sumValues s.supporters := by
  induction h with
  | start => rfl
  | stepInit s t caller hr hop ih =>
    unfold SpecProposal.initOp at hop
    cases hf : s.factory with
    | some f => simp [hf] at hop
    | none =>
      simp [hf] at hop
      subst hop
      simpa using ih
  | stepConfigure s t caller title description goal md hr hop ih =>
    unfold SpecProposal.configureOp at hop
    split_ifs at hop with h1 h2 h3
    simp at hop
    subst hop
    simpa using ih
  | stepAddSupporter s t caller amount hr hop ih =>
    unfold SpecProposal.addSupporterOp at hop
    split_ifs at hop with h1 h2
    simp at hop
    subst hop
    simpa [sumValues_addAmount] using ih

/-- A run of successful `add_supporter` calls adds exactly the attached
amounts to `funding_total`. -/
theorem runSupports_total (l : List (AccountId × Nat)) (s t : SpecProposal)
    (h : runSupports s l = some t) :
    t.funding_total = s.funding_total + (l.map Prod.snd).sum := by
  induction l generalizing s with
  | nil =>
    simp [runSupports] at h
    subst h
    simp
  | cons p rest ih =>
    obtain ⟨c, a⟩ := p
    unfold runSupports at h
    cases hop : s.addSupporterOp c a with
    | error e => rw [hop] at h; simp at h
    | ok u =>
      rw [hop] at h
      have hrest := ih u h
      unfold SpecProposal.addSupporterOp at hop
      split_ifs at hop with h1 h2
      simp at hop
      subst hop
      simp at hrest
      simp [hrest]
      omega

/-- While `configured` is false no contribution has ever been accepted: the
ledger is empty and the total is zero, in every reachable state. -/
theorem reachable_unconfigured_empty (s : SpecProposal) (h : Reachable s)
    (hc : s.configured = false) :
    s.supporters = [] ∧ s.funding_total = 0 := by
  induction h with
  | start => exact ⟨rfl, rfl⟩
  | stepInit s t caller hr hop ih =>
    unfold SpecProposal.initOp at hop
    cases hf : s.factory with
    | some f => simp [hf] at hop
    | none =>
      simp [hf] at hop
      subst hop
      simp at hc ⊢
      exact ih hc
  | stepConfigure s t caller title description goal md hr hop ih =>
    unfold SpecProposal.configureOp at hop
    split_ifs at hop with h1 h2 h3
    simp at hop
    subst hop
    simp at hc
  | stepAddSupporter s t caller amount hr hop ih =>
    unfold SpecProposal.addSupporterOp at hop
    split_ifs at hop with h1 h2
    simp at hop
    subst hop
    simp at hc
    simp [hc] at h1

/- ### Concrete states used by the witnesses -/

/-- The state right after a successful `initialize` by "root" (the
simulation's master account). -/
def sInit : SpecProposal := { initialState with factory := some "root" }

/-- The state after the factory configures the §8 scenario terms. -/
def sConfigured : SpecProposal :=
  { sInit with
    configured := true
    title := "Build a well"
    description := "for a village"
    goal := 10 * 10 ^ 24
    min_deposit := 3 * 10 ^ 24 }

/- ### The claims -/

/-- C1: in every reachable contract state the cached `funding_total` equals
the sum of all values in the `supporters` ledger; and after any sequence of
successful `add_supporter` calls `get_funding_total` returns that ledger
sum plus all accepted amounts. -/
theorem funding_total_invariant (s : SpecProposal) (h : Reachable s) :
    s.funding_total = sumValues s.supporters ∧
    ∀ (l : List (AccountId × Nat)) (t : SpecProposal),
      runSupports s l = some t →
      t.getFundingTotal = sumValues s.supporters + (l.map Prod.snd).sum := by
  refine ⟨reachable_sum s h, fun l t ht => ?_⟩
  have htot := runSupports_total l s t ht
  unfold SpecProposal.getFundingTotal
  rw [htot, reachable_sum s h]

/-- Witness for C1 at the reachable configured state of the §8 scenario. -/
theorem funding_total_invariant_witness :
    sConfigured.funding_total = sumValues sConfigured.supporters ∧
    ∀ (l : List (AccountId × Nat)) (t : SpecProposal),
      runSupports sConfigured l = some t →
      t.getFundingTotal = sumValues sConfigured.supporters + (l.map Prod.snd).sum :=
  funding_total_invariant sConfigured
    (Reachable.stepConfigure sInit sConfigured "root" "Build a well"
      "for a village" (10 * 10 ^ 24) (3 * 10 ^ 24)
      (Reachable.stepInit initialState sInit "root" Reachable.start rfl)
      (by rfl))

/-- C2: on a configured state, `add_supporter` with attached amount below
`min_deposit` fails with `DepositTooSmall`; with amount at least
`min_deposit` it succeeds, adds the amount to the caller's ledger entry
(creating it if absent) and increases `funding_total` by exactly that
amount. -/
theorem add_supporter_spec (s : SpecProposal) (caller : AccountId)
    (amount : Nat) (h : s.configured = true) :
    (amount < s.min_deposit →
      s.addSupporterOp caller amount =
        Except.error ProposalError.DepositTooSmall) ∧
    (s.min_deposit ≤ amount →
      s.addSupporterOp caller amount =
        Except.ok { s with supporters := addAmount s.supporters caller amount
                           funding_total := s.funding_total + amount } ∧
      amountOf (addAmount s.supporters caller amount) caller =
        amountOf s.supporters caller + amount) := by
  constructor
  · intro hlt
    unfold SpecProposal.addSupporterOp
    simp [h, hlt]
  · intro hge
    refine ⟨?_, amountOf_addAmount _ _ _⟩
    unfold SpecProposal.addSupporterOp
    simp [h, Nat.not_lt.mpr hge]

/-- Witness for C2 on the configured scenario state with a 5×10^24
deposit. -/
theorem add_supporter_spec_witness :
    (5 * 10 ^ 24 < sConfigured.min_deposit →
      sConfigured.addSupporterOp "alice" (5 * 10 ^ 24) =
        Except.error ProposalError.DepositTooSmall) ∧
    (sConfigured.min_deposit ≤ 5 * 10 ^ 24 →
      sConfigured.addSupporterOp "alice" (5 * 10 ^ 24) =
        Except.ok { sConfigured with
          supporters := addAmount sConfigured.supporters "alice" (5 * 10 ^ 24)
          funding_total := sConfigured.funding_total + 5 * 10 ^ 24 } ∧
      amountOf (addAmount sConfigured.supporters "alice" (5 * 10 ^ 24)) "alice" =
        amountOf sConfigured.supporters "alice" + 5 * 10 ^ 24) :=
  add_supporter_spec sConfigured "alice" (5 * 10 ^ 24) rfl

/-- C3: a `configure` call by the factory on a not-yet-configured state
fails with `InvalidTerms` exactly when `goal = 0` or `min_deposit = 0` or
`min_deposit > goal`; with valid terms it succeeds, sets `configured`, and
every further `configure` call fails. -/
theorem configure_terms_spec (s : SpecProposal) (f : AccountId)
    (title description : String) (goal md : Nat)
    (hf : s.factory = some f) (hc : s.configured = false) :
    (s.configureOp f title description goal md =
        Except.error ProposalError.InvalidTerms ↔
      (goal = 0 ∨ md = 0 ∨ md > goal)) ∧
    (0 < md → md ≤ goal →
      ∃ t, s.configureOp f title description goal md = Except.ok t ∧
        t.configured = true ∧
        ∀ (c : AccountId) (ti de : String) (g m : Nat),
          ∃ e, t.configureOp c ti de g m = Except.error e) := by
  constructor
  · unfold SpecProposal.configureOp
    by_cases hbad : goal = 0 ∨ md = 0 ∨ md > goal
    · simp [hf, hc, hbad]
    · simp [hf, hc, hbad]
  · intro h1 h2
    have hbad : ¬(goal = 0 ∨ md = 0 ∨ md > goal) := by omega
    refine ⟨{ s with configured := true, title := title, description := description, goal := goal, min_deposit := md }, ?_, rfl, ?_⟩
    · unfold SpecProposal.configureOp
      simp [hf, hc, hbad]
    · intro c ti de g m
      unfold SpecProposal.configureOp
      by_cases hcf : s.factory = some c
      · exact ⟨ProposalError.AlreadyConfigured, by simp [hcf]⟩
      · exact ⟨ProposalError.NotAuthorized, by simp [hcf]⟩

/-- Witness for C3 on the initialized state with the §8 scenario terms. -/
theorem configure_terms_spec_witness :
    (sInit.configureOp "root" "Build a well" "for a village" (10 * 10 ^ 24)
        (3 * 10 ^ 24) = Except.error ProposalError.InvalidTerms ↔
      (10 * 10 ^ 24 = 0 ∨ 3 * 10 ^ 24 = 0 ∨ 3 * 10 ^ 24 > 10 * 10 ^ 24)) ∧
    (0 < 3 * 10 ^ 24 → 3 * 10 ^ 24 ≤ 10 * 10 ^ 24 →
      ∃ t, sInit.configureOp "root" "Build a well" "for a village"
          (10 * 10 ^ 24) (3 * 10 ^ 24) = Except.ok t ∧
        t.configured = true ∧
        ∀ (c : AccountId) (ti de : String) (g m : Nat),
          ∃ e, t.configureOp c ti de g m = Except.error e) :=
  configure_terms_spec sInit "root" "Build a well" "for a village"
    (10 * 10 ^ 24) (3 * 10 ^ 24) rfl rfl

/-- C4: `initialize` succeeds at most once: on an uninitialized state it
records the caller as `factory`; once `factory` is recorded, every further
`initialize` call fails with `AlreadyInitialized` and the committed state
(hence `factory`) is unchanged. -/
theorem initialize_at_most_once (s : SpecProposal) (caller : AccountId) :
    (s.factory = none →
      s.initOp caller = Except.ok { s with factory := some caller }) ∧
    (∀ f, s.factory = some f →
      s.initOp caller = Except.error ProposalError.AlreadyInitialized ∧
      (initStep s caller).1 = s) := by
  constructor
  · intro h
    unfold SpecProposal.initOp
    rw [h]
  · intro f h
    have hop : s.initOp caller = Except.error ProposalError.AlreadyInitialized := by
      unfold SpecProposal.initOp
      rw [h]
    exact ⟨hop, by simp [initStep, commit, hop]⟩

/-- Witness for C4: the first call on the fresh state succeeds and records
"root"; the second call fails and commits no change. -/
theorem initialize_at_most_once_witness :
    initialState.initOp "root" = Except.ok { initialState with factory := some "root" } ∧
    (sInit.initOp "alice" = Except.error ProposalError.AlreadyInitialized ∧
      (initStep sInit "alice").1 = sInit) :=
  ⟨(initialize_at_most_once initialState "root").1 rfl,
   (initialize_at_most_once sInit "alice").2 "root" rfl⟩

/-- C5: on an initialized state, a `configure` call by any account other
than the recorded factory fails with `NotAuthorized` and the committed
state is unchanged. -/
theorem configure_not_authorized (s : SpecProposal) (f c : AccountId)
    (title description : String) (goal md : Nat)
    (hf : s.factory = some f) (hne : c ≠ f) :
    s.configureOp c title description goal md =
      Except.error ProposalError.NotAuthorized ∧
    (configureStep s c title description goal md).1 = s := by
  have hcond : ¬(s.factory = some c) := by
    rw [hf]
    intro h
    exact hne (Option.some.inj h).symm
  have hop : s.configureOp c title description goal md =
      Except.error ProposalError.NotAuthorized := by
    unfold SpecProposal.configureOp
    simp [hcond]
  exact ⟨hop, by simp [configureStep, commit, hop]⟩

/-- Witness for C5: "alice" cannot configure the proposal initialized by
"root". -/
theorem configure_not_authorized_witness :
    sInit.configureOp "alice" "Build a well" "for a village" (10 * 10 ^ 24)
      (3 * 10 ^ 24) = Except.error ProposalError.NotAuthorized ∧
    (configureStep sInit "alice" "Build a well" "for a village"
      (10 * 10 ^ 24) (3 * 10 ^ 24)).1 = sInit :=
  configure_not_authorized sInit "root" "alice" "Build a well"
    "for a village" (10 * 10 ^ 24) (3 * 10 ^ 24) rfl (by decide)

/-- C6: while `configured` is false every `add_supporter` call fails with
`NotConfigured`; and in every reachable unconfigured state no contribution
has ever been accepted (the ledger is empty and the total is zero). -/
theorem no_contribution_before_configured (s : SpecProposal)
    (hc : s.configured = false) :
    (∀ (caller : AccountId) (amount : Nat),
      s.addSupporterOp caller amount =
        Except.error ProposalError.NotConfigured) ∧
    (Reachable s → s.supporters = [] ∧ s.funding_total = 0) := by
  constructor
  · intro caller amount
    unfold SpecProposal.addSupporterOp
    simp [hc]
  · intro hr
    exact reachable_unconfigured_empty s hr hc

/-- Witness for C6 on the reachable, initialized but unconfigured state. -/
theorem no_contribution_before_configured_witness :
    sInit.addSupporterOp "alice" (5 * 10 ^ 24) =
      Except.error ProposalError.NotConfigured ∧
    (sInit.supporters = [] ∧ sInit.funding_total = 0) :=
  ⟨(no_contribution_before_configured sInit rfl).1 "alice" (5 * 10 ^ 24),
   (no_contribution_before_configured sInit rfl).2
     (Reachable.stepInit initialState sInit "root" Reachable.start rfl)⟩

/-- A committed transaction that reports an error leaves the pre-state in
place and returns exactly that error. -/
theorem commit_error_atomic (s : SpecProposal)
    (r : Except ProposalError SpecProposal) (e : ProposalError)
    (h : (commit s r).2 = some e) : commit s r = (s, some e) := by
  cases r with
  | ok t => simp [commit] at h
  | error e' =>
    simp [commit] at h ⊢
    exact h

/-- C7: every failing call to a mutating entry point is atomic: the
committed state after the failed call equals the state before it and the
failure reason is the call's result. -/
theorem failed_calls_atomic (s : SpecProposal) (caller : AccountId)
    (title description : String) (goal md amount : Nat) (e : ProposalError) :
    ((initStep s caller).2 = some e → initStep s caller = (s, some e)) ∧
    ((configureStep s caller title description goal md).2 = some e →
      configureStep s caller title description goal md = (s, some e)) ∧
    ((addSupporterStep s caller amount).2 = some e →
      addSupporterStep s caller amount = (s, some e)) :=
  ⟨fun h => commit_error_atomic s (s.initOp caller) e h,
   fun h => commit_error_atomic s
     (s.configureOp caller title description goal md) e h,
   fun h => commit_error_atomic s (s.addSupporterOp caller amount) e h⟩

/-- Witness for C7: a failing second `initialize` commits no state change
and surfaces `AlreadyInitialized`. -/
theorem failed_calls_atomic_witness :
    initStep sInit "alice" = (sInit, some ProposalError.AlreadyInitialized) :=
  (failed_calls_atomic sInit "alice" "" "" 0 0 0
    ProposalError.AlreadyInitialized).1 rfl

/-- The §8 scenario run against the modelled contract: initialize by
"root", configure with the stated terms, then two supporter deposits of
5×10^24 and 6×10^24. -/
def scenarioFinal : Except ProposalError SpecProposal :=
  (initialState.initOp "root").bind fun s1 =>
    (s1.configureOp "root" "Build a well" "for a village" (10 * 10 ^ 24)
      (3 * 10 ^ 24)).bind fun s2 =>
      (s2.addSupporterOp "root" (5 * 10 ^ 24)).bind fun s3 =>
        s3.addSupporterOp "root" (6 * 10 ^ 24)

/-- C8: the scenario succeeds, `get_funding_total` returns 11×10^24 and
`get_factory` returns the initializing account "root". -/
theorem scenario_funding_total :
    ∃ t, scenarioFinal = Except.ok t ∧
      t.getFundingTotal = 11 * 10 ^ 24 ∧ t.getFactory = some "root" := by
  refine ⟨{ sConfigured with
            supporters := [("root", 11 * 10 ^ 24)]
            funding_total := 11 * 10 ^ 24 }, by rfl, by norm_num [SpecProposal.getFundingTotal, sConfigured, sInit, initialState], by rfl⟩

/-- C9: `get_funding_total` is a read-only query: in every state, with no
authorization check and no state change, it returns `funding_total`. -/
theorem get_funding_total_read_only (s : SpecProposal) :
    getFundingTotalStep s = (s, Except.ok s.funding_total) ∧
    s.getFundingTotal = s.funding_total :=
  ⟨rfl, rfl⟩

/-- C10: every entry point of the Rust stub always succeeds with the unit
value and passes the fieldless contract value through unchanged; all values
of the state type are equal, so each call's observable result is
independent of all earlier calls. -/
theorem stub_methods_trivial :
    (∀ (c : StubCall) (s : Proposal), stubExec c s = (s, ())) ∧
    (∀ (p q : Proposal), p = q) ∧
    (∀ (cs : List StubCall) (s : Proposal),
      stubRun cs s = (s, List.replicate cs.length ())) := by
  refine ⟨fun c s => by cases c <;> rfl, fun p q => rfl, fun cs s => ?_⟩
  induction cs with
  | nil => rfl
  | cons c rest ih =>
    cases c <;> simp [stubRun, stubExec, ih, List.replicate_succ]
